import Mathlib

/-!
Verification development for the FoxL interpreter.

Shallow embedding of the FoxL sources:
  * value model, evaluator and statement executor: `src/FoxL/interpreter.cpp`
    (the first translation unit in that file, `class Interpreter`, lines 17-521),
  * AST node shapes: `src/FoxL/ast_nodes.h`,
  * recursive-descent parser: `src/unnamed/part_006` (`Parser::...`) with the
    declaration `parseExpression(int minPrecedence = 0)` from `parser.h`
    (`src/unnamed/part_004`),
  * driver: `src/FoxL.cpp` (`main`).

Modelling conventions:
  * C++ `int` is modelled as `Int` (no claim in scope exercises 32-bit overflow)
    and C++ `double` as `Rat` (every numeric literal the lexer can produce is an
    exact decimal; no claim in scope exercises floating-point rounding).
  * `std::unordered_map` is modelled as an association list with
    replace-or-append insertion; the interpreter never iterates a map except to
    copy it wholesale, so only lookup/insert behaviour matters.
  * Exceptions are modelled by explicit result constructors (`ok`, `err`,
    `ret` for `ReturnException`, and `timeout` for fuel exhaustion, which
    stands for non-termination and corresponds to no C++ behaviour).
  * `std::get` on a `std::variant` holding the wrong alternative throws
    `std::bad_variant_access`; its `what()` text is implementation defined and
    modelled by the fixed string `badVariantMsg`.
  * Console I/O: `stdout` is a string buffer, `stderr` a list of lines, and
    `stdin` a list of lines consumed by `getline`.
  * The `include` statement re-enters the host file loader plus the
    lexer/parser; per the spec the loader is an external collaborator, so the
    state carries pre-parsed files (`files : List (String × List Stmt)`).
-/

namespace FoxL

/-- Runtime values: the variant
`std::variant<int, double, std::string, bool, std::vector<int>, std::vector<std::string>>`
used throughout `interpreter.cpp`.  Note there is no null alternative.
`DecidableEq` coincides with `std::variant::operator==`: equal index, then
equal payload. -/
inductive Value where
  | vInt (n : Int)
  | vFloat (q : Rat)
  | vStr (s : String)
  | vBool (b : Bool)
  | vIntArr (a : List Int)
  | vStrArr (a : List String)
deriving DecidableEq, Repr

/-- `Interpreter::Variable`: a value plus the `isConstant` flag. -/
structure VarEntry where
  value : Value
  isConstant : Bool
deriving DecidableEq, Repr

/-- Association-list lookup, modelling `unordered_map::find`. -/
def lookupA {α : Type} : List (String × α) → String → Option α
  | [], _ => none
  | (k, v) :: rest, key => if k = key then some v else lookupA rest key

/-- Association-list insert-or-replace, modelling `unordered_map::operator[] =`. -/
def insertA {α : Type} : List (String × α) → String → α → List (String × α)
  | [], k, v => [(k, v)]
  | (k0, v0) :: rest, k, v =>
    if k0 = k then (k, v) :: rest else (k0, v0) :: insertA rest k v

/-- `variables[name].value = v`: update the value of an existing entry,
keeping its `isConstant` flag.  If the name is absent, `operator[]`
default-inserts first (unreachable in every use site, since the code has just
read the variable; the default `isConstant` is modelled as `false`). -/
def storeVarValue (m : List (String × VarEntry)) (name : String) (v : Value) :
    List (String × VarEntry) :=
  match lookupA m name with
  | some en => insertA m name { en with value := v }
  | none => insertA m name { value := v, isConstant := false }

/-- Truncation toward zero: `static_cast<int>` on a C++ `double`. -/
def ratTrunc (q : Rat) : Int :=
  if q < 0 then -((-q).floor) else q.floor

/-- Digit-string to natural number (helper for the `std::stod` / `std::stoi`
models; the lexer only produces lexemes made of ASCII digits and at most one
dot). -/
def digitsToNat (s : String) : Nat :=
  s.toList.foldl (fun n c => n * 10 + (c.toNat - 48)) 0

/-- `std::stod` on a lexer number lexeme (digits with at most one embedded
dot), producing the exact decimal value. -/
def parseDecimal (s : String) : Rat :=
  let cs := s.toList
  let whole := cs.takeWhile (fun c => c ≠ '.')
  let rest := cs.dropWhile (fun c => c ≠ '.')
  match rest with
  | [] => (digitsToNat (String.mk whole) : Rat)
  | _ :: frac =>
      (digitsToNat (String.mk whole) : Rat) +
        (digitsToNat (String.mk frac) : Rat) / ((10 : Rat) ^ frac.length)

/-- `Interpreter::isNumber`: nonempty and all characters are decimal digits. -/
def isNumberStr (s : String) : Bool :=
  !s.isEmpty && s.toList.all (fun c => c.isDigit)

/-- `Interpreter::isDouble` feeds the string to `istringstream >> double` and
requires full consumption.  Modelled for plain decimal forms
`[sign] digits [. digits]` (exponent and hexadecimal forms are out of scope;
no claim exercises `read`). -/
def strToRatOpt (s : String) : Option Rat :=
  let cs := s.toList
  let signed : Bool × List Char :=
    match cs with
    | '-' :: rest => (true, rest)
    | '+' :: rest => (false, rest)
    | _ => (false, cs)
  let neg := signed.1
  let cs1 := signed.2
  let whole := cs1.takeWhile (fun c => c.isDigit)
  let rest1 := cs1.dropWhile (fun c => c.isDigit)
  let fracPart : List Char × List Char :=
    match rest1 with
    | '.' :: r => (r.takeWhile (fun c => c.isDigit), r.dropWhile (fun c => c.isDigit))
    | _ => ([], rest1)
  let frac := fracPart.1
  let rest2 := fracPart.2
  if rest2 = [] ∧ (whole ≠ [] ∨ frac ≠ []) then
    let mag : Rat :=
      (digitsToNat (String.mk whole) : Rat) +
        (digitsToNat (String.mk frac) : Rat) / ((10 : Rat) ^ frac.length)
    some (if neg then -mag else mag)
  else
    none

/-- The modelled `what()` text of `std::bad_variant_access`. -/
def badVariantMsg : String := "bad_variant_access"

/-- Rendering of a `double` by `operator<<`; modelled as the exact rational
rendering (no claim prints a float). -/
def floatStr (q : Rat) : String := toString q

/-- `Interpreter::printValue` (both overloads), without the trailing
`std::endl`: ints and strings print directly, `bool` prints `1`/`0`
(`std::boolalpha` is never set in this translation unit), vectors print as
`[e1, e2]`. -/
def printValueStr : Value → String
  | .vInt n => toString n
  | .vFloat q => floatStr q
  | .vStr s => s
  | .vBool b => if b then "1" else "0"
  | .vIntArr a => "[" ++ String.intercalate ", " (a.map toString) ++ "]"
  | .vStrArr a => "[" ++ String.intercalate ", " a ++ "]"

mutual
/-- Expression AST (`ast_nodes.h`).  `BinaryExpression.rightElse` is omitted:
the parser in `part_006` never populates it and the interpreter never reads
it. -/
inductive Expr where
  | num (value : Rat) (line : Int)
  | str (value : String) (line : Int)
  | boolE (value : Bool) (line : Int)
  | var (name : String) (line : Int)
  | bin (op : String) (left right : Expr) (line : Int)
  | readE (prompt : Option Expr) (line : Int)
  | indexE (array index : Expr) (line : Int)
  | arr (elements : List Expr) (line : Int)
  | call (functionName : String) (args : List Expr) (line : Int)
  | unary (op : String) (operand : Expr) (line : Int)
deriving Repr

/-- Statement AST (`ast_nodes.h`), restricted to the node types the parser in
`part_006` can produce.  `FunctionDeclaration.body` is stored as the statement
list the interpreter consumes (`cloneStatements(funcDecl->body)`); the parser
produces a one-element list holding the parsed block. -/
inductive Stmt where
  | write (messageExpr : Expr) (line : Int)
  | varDecl (type name : String) (initializer : Option Expr) (line : Int)
  | funcDecl (name : String) (parameters : List String) (body : List Stmt) (line : Int)
  | ifS (condition : Expr) (thenBranch : Stmt) (elseBranch : Option Stmt) (line : Int)
  | forS (initializer : Stmt) (condition : Expr) (increment : Stmt) (body : Stmt) (line : Int)
  | whileS (condition : Expr) (body : Stmt) (line : Int)
  | returnS (expression : Option Expr) (line : Int)
  | block (statements : List Stmt) (line : Int)
  | includeS (fileName : String) (target : Option Expr) (line : Int)
  | readS (targetVar : Option Expr) (prompt : Option Expr) (line : Int)
  | exprStmt (expression : Expr) (line : Int)
  | classDecl (name : String) (members : List ClassMember) (line : Int)
deriving Repr

/-- Class members (`FieldDeclaration` / `MethodDeclaration` in
`ast_nodes.h`). -/
inductive ClassMember where
  | fieldD (modifier fieldType name : String) (line : Int)
  | methodD (modifier name : String) (parameters : List String) (body : Stmt) (line : Int)
deriving Repr
end

/-- The `line` field shared by all AST nodes. -/
def Expr.line : Expr → Int
  | .num _ l => l
  | .str _ l => l
  | .boolE _ l => l
  | .var _ l => l
  | .bin _ _ _ l => l
  | .readE _ l => l
  | .indexE _ _ l => l
  | .arr _ l => l
  | .call _ _ l => l
  | .unary _ _ l => l

mutual
/-- `Interpreter::cloneExpression` (interpreter.cpp lines 491-521).  The
dispatch covers number, string, bool, variable, binary, read, index, array and
function-call expressions; anything else (a `UnaryExpression`, or the null
initializer pointer handed over by `cloneStatement`) reaches the final
`throw runtime_error("Unsupported expression type")`. -/
def cloneExpressionM : Expr → Except String Expr
  | .num v l => .ok (.num v l)
  | .str s l => .ok (.str s l)
  | .boolE b l => .ok (.boolE b l)
  | .var n l => .ok (.var n l)
  | .bin op a b l => do
      let a2 ← cloneExpressionM a
      let b2 ← cloneExpressionM b
      .ok (.bin op a2 b2 l)
  | .readE p l =>
      match p with
      | none => .ok (.readE none l)
      | some pe => do
          let p2 ← cloneExpressionM pe
          .ok (.readE (some p2) l)
  | .indexE a i l => do
      let a2 ← cloneExpressionM a
      let i2 ← cloneExpressionM i
      .ok (.indexE a2 i2 l)
  | .arr es l => do
      let es2 ← cloneExprList es
      .ok (.arr es2 l)
  | .call f args l => do
      let args2 ← cloneExprList args
      .ok (.call f args2 l)
  | .unary _ _ _ => .error "Unsupported expression type"

/-- Element-wise cloning of an expression vector. -/
def cloneExprList : List Expr → Except String (List Expr)
  | [] => .ok []
  | e :: rest => do
      let e2 ← cloneExpressionM e
      let rest2 ← cloneExprList rest
      .ok (e2 :: rest2)

/-- `Interpreter::cloneStatement` (interpreter.cpp lines 467-489).  Statement
types without a branch (`ExpressionStatement`, `ReadStatement`,
`ClassDeclaration`) reach `throw runtime_error("Unsupported statement type")`.
A `VariableDeclaration` without initializer or a bare `return;` hands
`cloneExpression` a null pointer, which falls through every `dynamic_cast`
to the `"Unsupported expression type"` throw.  Cloning an `IncludeStatement`
drops its optional target. -/
def cloneStatementM : Stmt → Except String Stmt
  | .write e l => do
      let e2 ← cloneExpressionM e
      .ok (.write e2 l)
  | .varDecl ty n init l =>
      match init with
      | none => .error "Unsupported expression type"
      | some e => do
          let e2 ← cloneExpressionM e
          .ok (.varDecl ty n (some e2) l)
  | .funcDecl n ps body l => do
      let body2 ← cloneStmtList body
      .ok (.funcDecl n ps body2 l)
  | .ifS c t e l => do
      let c2 ← cloneExpressionM c
      let t2 ← cloneStatementM t
      match e with
      | none => .ok (.ifS c2 t2 none l)
      | some es => do
          let es2 ← cloneStatementM es
          .ok (.ifS c2 t2 (some es2) l)
  | .forS i c inc b l => do
      let i2 ← cloneStatementM i
      let c2 ← cloneExpressionM c
      let inc2 ← cloneStatementM inc
      let b2 ← cloneStatementM b
      .ok (.forS i2 c2 inc2 b2 l)
  | .whileS c b l => do
      let c2 ← cloneExpressionM c
      let b2 ← cloneStatementM b
      .ok (.whileS c2 b2 l)
  | .returnS e l =>
      match e with
      | none => .error "Unsupported expression type"
      | some ex => do
          let ex2 ← cloneExpressionM ex
          .ok (.returnS (some ex2) l)
  | .block ss l => do
      let ss2 ← cloneStmtList ss
      .ok (.block ss2 l)
  | .includeS fn _ l => .ok (.includeS fn none l)
  | .readS _ _ _ => .error "Unsupported statement type"
  | .exprStmt _ _ => .error "Unsupported statement type"
  | .classDecl _ _ _ => .error "Unsupported statement type"

/-- `Interpreter::cloneStatements`. -/
def cloneStmtList : List Stmt → Except String (List Stmt)
  | [] => .ok []
  | s :: rest => do
      let s2 ← cloneStatementM s
      let rest2 ← cloneStmtList rest
      .ok (s2 :: rest2)
end

/-- `Interpreter::Function`: parameter names plus the cloned body
statements. -/
abbrev FnDef := List String × List Stmt

/-- The interpreter state: the two `unordered_map` members plus the modelled
console streams and the host loader table for `include`.  `vars` models the
`variables` member (`variables` is reserved in Lean). -/
structure InterpState where
  vars : List (String × VarEntry)
  functions : List (String × FnDef)
  outBuf : String
  errBuf : List String
  inBuf : List String
  files : List (String × List Stmt)
deriving Repr

/-- Result of `Interpreter::evaluate`: a value, a thrown `runtime_error`, or
fuel exhaustion (non-termination; no C++ counterpart). -/
inductive EvalRes where
  | ok (v : Value) (st : InterpState)
  | err (msg : String) (st : InterpState)
  | timeout (st : InterpState)
deriving Repr

/-- Result of `Interpreter::execute`: normal completion, a propagating
`ReturnException`, a propagating `runtime_error` (only produced by
`executeCore`; the catch in `execute` converts it to stderr output), or fuel
exhaustion. -/
inductive ExecRes where
  | ok (st : InterpState)
  | ret (v : Value) (st : InterpState)
  | err (msg : String) (st : InterpState)
  | timeout (st : InterpState)
deriving Repr

/-- Result of evaluating an argument list into the callee-local variable
snapshot. -/
inductive BindRes where
  | ok (locals : List (String × VarEntry)) (st : InterpState)
  | err (msg : String) (st : InterpState)
  | timeout (st : InterpState)
deriving Repr

/-- Result of evaluating the elements of an array literal. -/
inductive ElemsRes (α : Type) where
  | ok (xs : List α) (st : InterpState)
  | err (msg : String) (st : InterpState)
  | timeout (st : InterpState)
deriving Repr

/-- The catch block of `Interpreter::evaluate` appends the offending line to
any escaping error before rethrowing. -/
def wrapLine (l : Int) : EvalRes → EvalRes
  | .err m st => .err (m ++ " at line " ++ toString l) st
  | r => r

/-- `Interpreter::evaluateNumberExpression`: `static_cast<int>(expr->value)`,
truncation toward zero of the parsed double. -/
def evaluateNumberExpression (value : Rat) : Value := .vInt (ratTrunc value)

/-- `Interpreter::evaluateVariableExpression`. -/
def evaluateVariableExpression (name : String) (st : InterpState) : EvalRes :=
  match lookupA st.vars name with
  | some en => .ok en.value st
  | none => .err ("Undefined variable: " ++ name) st

/-- C++ `int` division: truncation toward zero. -/
def intDivTrunc (a b : Int) : Int :=
  if (0 ≤ a) = (0 ≤ b) then ((a.natAbs / b.natAbs : Nat) : Int)
  else -((a.natAbs / b.natAbs : Nat) : Int)

/-- `Interpreter::evaluateReadExpression`, after the prompt string has been
computed: print the prompt (no newline), `getline` one stdin line (empty at
end of input), then try `stoi` (all digits), `stod`, else keep the string. -/
def readFromInput (prompt : String) (st : InterpState) : EvalRes :=
  let st1 := { st with outBuf := st.outBuf ++ prompt }
  let inputAndRest : String × List String :=
    match st1.inBuf with
    | [] => ("", [])
    | s :: rest => (s, rest)
  let input := inputAndRest.1
  let st2 := { st1 with inBuf := inputAndRest.2 }
  if isNumberStr input then .ok (.vInt (digitsToNat input)) st2
  else
    match strToRatOpt input with
    | some q => .ok (.vFloat q) st2
    | none => .ok (.vStr input) st2

mutual
/-- `Interpreter::evaluate` (interpreter.cpp lines 159-187): dispatch on the
dynamic expression type inside a try block whose catch rethrows with
`" at line L"` appended.  A `UnaryExpression` matches no branch; the
fall-through `throw` sits after the try block, so its message (which already
names the line) is not wrapped again. -/
def evaluate : Nat → Expr → InterpState → EvalRes
  | 0, _, st => .timeout st
  | fuel + 1, e, st =>
    match e with
    | .num v l => wrapLine l (.ok (evaluateNumberExpression v) st)
    | .str s l => wrapLine l (.ok (.vStr s) st)
    | .boolE b l => wrapLine l (.ok (.vBool b) st)
    | .var n l => wrapLine l (evaluateVariableExpression n st)
    | .bin op lhs rhs l => wrapLine l (evaluateBinaryExpression fuel op lhs rhs st)
    | .readE p l => wrapLine l (evaluateReadExpression fuel p st)
    | .indexE a i l => wrapLine l (evaluateIndexExpression fuel a i st)
    | .arr es l => wrapLine l (evaluateArrayExpression fuel es st)
    | .call f args l => wrapLine l (evaluateFunctionCallExpression fuel f args st)
    | .unary _ _ l =>
        .err ("Unsupported expression type: UnaryExpression at line " ++ toString l) st

/-- `Interpreter::evaluateBinaryExpression` (interpreter.cpp lines 209-340).
Both operands are evaluated eagerly first (lines 210-211), for every operator
including `=`; the `=` branch then re-evaluates the right-hand side. -/
def evaluateBinaryExpression : Nat → String → Expr → Expr → InterpState → EvalRes
  | 0, _, _, _, st => .timeout st
  | fuel + 1, op, lhs, rhs, st =>
    match evaluate fuel lhs st with
    | .err m st1 => .err m st1
    | .timeout st1 => .timeout st1
    | .ok left st1 =>
      match evaluate fuel rhs st1 with
      | .err m st2 => .err m st2
      | .timeout st2 => .timeout st2
      | .ok right st2 =>
        if op = "=" then
          match lhs with
          | .var name _ =>
            match lookupA st2.vars name with
            | none => .err ("Undefined variable: " ++ name) st2
            | some en =>
              if en.isConstant then
                .err ("Cannot assign to constant variable: " ++ name) st2
              else
                match evaluate fuel rhs st2 with
                | .err m st3 => .err m st3
                | .timeout st3 => .timeout st3
                | .ok rv st3 =>
                    .ok rv { st3 with vars := storeVarValue st3.vars name rv }
          | .indexE arrE idxE _ =>
            match arrE with
            | .var aname _ =>
              match evaluate fuel arrE st2 with
              | .err m st3 => .err m st3
              | .timeout st3 => .timeout st3
              | .ok arrayValue st3 =>
                match evaluate fuel idxE st3 with
                | .err m st4 => .err m st4
                | .timeout st4 => .timeout st4
                | .ok idxV st4 =>
                  match idxV with
                  | .vInt index =>
                    match evaluate fuel rhs st4 with
                    | .err m st5 => .err m st5
                    | .timeout st5 => .timeout st5
                    | .ok rightValue st5 =>
                      match arrayValue with
                      | .vIntArr _ =>
                        match lookupA st5.vars aname with
                        | none => .err badVariantMsg st5
                        | some en =>
                          match en.value with
                          | .vIntArr xs =>
                            if 0 ≤ index ∧ index < (xs.length : Int) then
                              match rightValue with
                              | .vInt rv =>
                                  let newArr := Value.vIntArr (xs.set index.toNat rv)
                                  .ok rightValue
                                    { st5 with vars := storeVarValue st5.vars aname newArr }
                              | _ => .err badVariantMsg st5
                            else .err "Index out of bounds" st5
                          | _ => .err badVariantMsg st5
                      | .vStrArr _ =>
                        match lookupA st5.vars aname with
                        | none => .err badVariantMsg st5
                        | some en =>
                          match en.value with
                          | .vStrArr xs =>
                            if 0 ≤ index ∧ index < (xs.length : Int) then
                              match rightValue with
                              | .vStr rv =>
                                  let newArr := Value.vStrArr (xs.set index.toNat rv)
                                  .ok rightValue
                                    { st5 with vars := storeVarValue st5.vars aname newArr }
                              | _ => .err badVariantMsg st5
                            else .err "Index out of bounds" st5
                          | _ => .err badVariantMsg st5
                      | _ => .err "Variable is not an array" st5
                  | _ => .err badVariantMsg st4
            | _ => .err "Array must be a variable." st2
          | _ => .err "Unsupported left-hand side in assignment." st2
        else if op = "+" then
          match left, right with
          | .vInt a, .vInt b => .ok (.vInt (a + b)) st2
          | .vFloat a, .vFloat b => .ok (.vFloat (a + b)) st2
          | .vStr a, .vStr b => .ok (.vStr (a ++ b)) st2
          | .vStr a, .vInt b => .ok (.vStr (a ++ toString b)) st2
          | .vInt a, .vStr b => .ok (.vStr (toString a ++ b)) st2
          | _, _ => .err "Unsupported operand types for \x27+\x27." st2
        else if op = "-" then
          match left, right with
          | .vInt a, .vInt b => .ok (.vInt (a - b)) st2
          | .vFloat a, .vFloat b => .ok (.vFloat (a - b)) st2
          | _, _ => .err "Unsupported operand types for \x27-\x27." st2
        else if op = "*" then
          match left, right with
          | .vInt a, .vInt b => .ok (.vInt (a * b)) st2
          | .vFloat a, .vFloat b => .ok (.vFloat (a * b)) st2
          | _, _ => .err "Unsupported operand types for \x27*\x27." st2
        else if op = "/" then
          match left, right with
          | .vInt a, .vInt b =>
              if b = 0 then .err "Division by zero." st2
              else .ok (.vInt (intDivTrunc a b)) st2
          | .vFloat a, .vFloat b =>
              if b = 0 then .err "Division by zero." st2
              else .ok (.vFloat (a / b)) st2
          | _, _ => .err "Unsupported operand types for \x27/\x27." st2
        else if op = "==" then
          .ok (.vBool (decide (left = right))) st2
        else if op = "!=" then
          .ok (.vBool (decide (left ≠ right))) st2
        else if op = "<" then
          match left, right with
          | .vInt a, .vInt b => .ok (.vBool (decide (a < b))) st2
          | .vFloat a, .vFloat b => .ok (.vBool (decide (a < b))) st2
          | _, _ => .err "Unsupported operand types for \x27<\x27." st2
        else if op = ">" then
          match left, right with
          | .vInt a, .vInt b => .ok (.vBool (decide (a > b))) st2
          | .vFloat a, .vFloat b => .ok (.vBool (decide (a > b))) st2
          | _, _ => .err "Unsupported operand types for \x27>\x27." st2
        else if op = "<=" then
          match left, right with
          | .vInt a, .vInt b => .ok (.vBool (decide (a ≤ b))) st2
          | .vFloat a, .vFloat b => .ok (.vBool (decide (a ≤ b))) st2
          | _, _ => .err "Unsupported operand types for \x27<=\x27." st2
        else if op = ">=" then
          match left, right with
          | .vInt a, .vInt b => .ok (.vBool (decide (a ≥ b))) st2
          | .vFloat a, .vFloat b => .ok (.vBool (decide (a ≥ b))) st2
          | _, _ => .err "Unsupported operand types for \x27>=\x27." st2
        else
          .err ("Unsupported binary operator: " ++ op) st2

/-- `Interpreter::evaluateReadExpression` (interpreter.cpp lines 342-357). -/
def evaluateReadExpression : Nat → Option Expr → InterpState → EvalRes
  | 0, _, st => .timeout st
  | fuel + 1, promptOpt, st =>
    match promptOpt with
    | none => readFromInput "Enter value: " st
    | some pe =>
      match evaluate fuel pe st with
      | .err m st1 => .err m st1
      | .timeout st1 => .timeout st1
      | .ok pv st1 =>
        match pv with
        | .vStr ps => readFromInput ps st1
        | _ => .err badVariantMsg st1

/-- `Interpreter::evaluateIndexExpression` (interpreter.cpp lines 359-380):
evaluate the array, evaluate the index and `std::get<int>` it, then
bounds-check `0 <= i < len` against the array value. -/
def evaluateIndexExpression : Nat → Expr → Expr → InterpState → EvalRes
  | 0, _, _, st => .timeout st
  | fuel + 1, arrE, idxE, st =>
    match evaluate fuel arrE st with
    | .err m st1 => .err m st1
    | .timeout st1 => .timeout st1
    | .ok av st1 =>
      match evaluate fuel idxE st1 with
      | .err m st2 => .err m st2
      | .timeout st2 => .timeout st2
      | .ok iv st2 =>
        match iv with
        | .vInt index =>
          match av with
          | .vIntArr xs =>
              if 0 ≤ index ∧ index < (xs.length : Int) then
                .ok (.vInt (xs.getD index.toNat 0)) st2
              else .err "Index out of bounds" st2
          | .vStrArr xs =>
              if 0 ≤ index ∧ index < (xs.length : Int) then
                .ok (.vStr (xs.getD index.toNat "")) st2
              else .err "Index out of bounds" st2
          | _ => .err "Variable is not an array" st2
        | _ => .err badVariantMsg st2

/-- `Interpreter::evaluateArrayExpression` (interpreter.cpp lines 382-401):
dispatch on the dynamic type of the first element expression; an empty literal
`return {}` default-constructs the variant, i.e. yields `int 0`. -/
def evaluateArrayExpression : Nat → List Expr → InterpState → EvalRes
  | 0, _, st => .timeout st
  | fuel + 1, elems, st =>
    match elems with
    | [] => .ok (.vInt 0) st
    | first :: _ =>
      match first with
      | .num _ _ =>
        match evalIntElems fuel elems st with
        | .ok xs st1 => .ok (.vIntArr xs) st1
        | .err m st1 => .err m st1
        | .timeout st1 => .timeout st1
      | .str _ _ =>
        match evalStrElems fuel elems st with
        | .ok xs st1 => .ok (.vStrArr xs) st1
        | .err m st1 => .err m st1
        | .timeout st1 => .timeout st1
      | _ => .err "Unsupported array element type." st

/-- Element loop of the `vector<int>` branch of `evaluateArrayExpression`:
`std::get<int>(evaluate(elem))` for each element. -/
def evalIntElems : Nat → List Expr → InterpState → ElemsRes Int
  | 0, _, st => .timeout st
  | _ + 1, [], st => .ok [] st
  | fuel + 1, e :: rest, st =>
    match evaluate fuel e st with
    | .err m st1 => .err m st1
    | .timeout st1 => .timeout st1
    | .ok v st1 =>
      match v with
      | .vInt n =>
        match evalIntElems fuel rest st1 with
        | .ok xs st2 => .ok (n :: xs) st2
        | .err m st2 => .err m st2
        | .timeout st2 => .timeout st2
      | _ => .err badVariantMsg st1

/-- Element loop of the `vector<string>` branch of
`evaluateArrayExpression`. -/
def evalStrElems : Nat → List Expr → InterpState → ElemsRes String
  | 0, _, st => .timeout st
  | _ + 1, [], st => .ok [] st
  | fuel + 1, e :: rest, st =>
    match evaluate fuel e st with
    | .err m st1 => .err m st1
    | .timeout st1 => .timeout st1
    | .ok v st1 =>
      match v with
      | .vStr s2 =>
        match evalStrElems fuel rest st1 with
        | .ok xs st2 => .ok (s2 :: xs) st2
        | .err m st2 => .err m st2
        | .timeout st2 => .timeout st2
      | _ => .err badVariantMsg st1

/-- `Interpreter::evaluateFunctionCallExpression` (interpreter.cpp lines
403-429).  `localVariables` starts as a copy of the caller bindings taken
before the arguments run; the arguments are evaluated left to right in the
caller environment and bound over that copy; `oldVariables` snapshots the
caller environment after argument evaluation; the caller environment is
restored both on a `ReturnException` and on fall-through (which returns the
integer 0).  A non-`Return` exception cannot escape the body loop because
`execute` catches it; if it did, the restore would be skipped - the model
propagates `err` unchanged in that unreachable case. -/
def evaluateFunctionCallExpression : Nat → String → List Expr → InterpState → EvalRes
  | 0, _, _, st => .timeout st
  | fuel + 1, fname, args, st =>
    match lookupA st.functions fname with
    | none => .err ("Undefined function: " ++ fname) st
    | some fn =>
      if fn.1.length ≠ args.length then
        .err ("Function " ++ fname ++ " called with incorrect number of arguments") st
      else
        match evalBindArgs fuel fn.1 args st.vars st with
        | .err m st1 => .err m st1
        | .timeout st1 => .timeout st1
        | .ok locals st1 =>
          let oldVariables := st1.vars
          match execList fuel fn.2 { st1 with vars := locals } with
          | .ret v st2 => .ok v { st2 with vars := oldVariables }
          | .ok st2 => .ok (.vInt 0) { st2 with vars := oldVariables }
          | .err m st2 => .err m st2
          | .timeout st2 => .timeout st2

/-- The argument-binding loop of `evaluateFunctionCallExpression`:
`localVariables[parameters[i]] = { evaluate(arguments[i]), false }`.  The
mismatched-length cases are unreachable behind the arity check. -/
def evalBindArgs : Nat → List String → List Expr → List (String × VarEntry) →
    InterpState → BindRes
  | 0, _, _, _, st => .timeout st
  | _ + 1, [], _, locals, st => .ok locals st
  | _ + 1, _ :: _, [], locals, st => .ok locals st
  | fuel + 1, p :: ps, a :: rest, locals, st =>
    match evaluate fuel a st with
    | .err m st1 => .err m st1
    | .timeout st1 => .timeout st1
    | .ok v st1 =>
        evalBindArgs fuel ps rest (insertA locals p { value := v, isConstant := false }) st1

/-- `Interpreter::execute` (interpreter.cpp lines 72-157): run the dispatch
and catch.  A `ReturnException` is rethrown unchanged; every other exception
is printed to stderr as `"Error executing statement: ..."` and swallowed, so
`execute` never produces `err`. -/
def execute : Nat → Stmt → InterpState → ExecRes
  | 0, _, st => .timeout st
  | fuel + 1, s, st =>
    match executeCore fuel s st with
    | .err m st1 =>
        .ok { st1 with errBuf := st1.errBuf ++ ["Error executing statement: " ++ m] }
    | r => r

/-- The try-block body of `Interpreter::execute`: the `dynamic_cast` dispatch
chain.  `ExpressionStatement`, `ReadStatement` and `ClassDeclaration` match no
branch, so executing them does nothing at all.  (The `VariableExpression`
branch at lines 95-100 is dead code: a `Statement*` can never dynamically be a
`VariableExpression`, which derives from `Expression` only.) -/
def executeCore : Nat → Stmt → InterpState → ExecRes
  | 0, _, st => .timeout st
  | fuel + 1, s, st =>
    match s with
    | .write e _ =>
      match evaluate fuel e st with
      | .err m st1 => .err m st1
      | .timeout st1 => .timeout st1
      | .ok v st1 => .ok { st1 with outBuf := st1.outBuf ++ printValueStr v ++ "\n" }
    | .varDecl ty name init _ =>
      let conflict : Bool :=
        match lookupA st.vars name with
        | some en => en.isConstant
        | none => false
      if conflict then .err ("Cannot reassign constant variable: " ++ name) st
      else
        match init with
        | some e =>
          match evaluate fuel e st with
          | .err m st1 => .err m st1
          | .timeout st1 => .timeout st1
          | .ok v st1 =>
              .ok { st1 with vars :=
                      insertA st1.vars name { value := v, isConstant := ty == "const" } }
        | none =>
          if ty = "int" then
            .ok { st with vars :=
                    insertA st.vars name { value := .vInt 0, isConstant := ty == "const" } }
          else if ty = "double" then
            .ok { st with vars :=
                    insertA st.vars name { value := .vFloat 0, isConstant := ty == "const" } }
          else if ty = "str" then
            .ok { st with vars :=
                    insertA st.vars name { value := .vStr "", isConstant := ty == "const" } }
          else if ty = "bool" then
            .ok { st with vars :=
                    insertA st.vars name { value := .vBool false, isConstant := ty == "const" } }
          else
            .ok st
    | .funcDecl name params body _ =>
      match cloneStmtList body with
      | .error m => .err m st
      | .ok cloned => .ok { st with functions := insertA st.functions name (params, cloned) }
    | .ifS cond thenB elseB _ =>
      match evaluate fuel cond st with
      | .err m st1 => .err m st1
      | .timeout st1 => .timeout st1
      | .ok v st1 =>
        match v with
        | .vBool true => execute fuel thenB st1
        | .vBool false =>
          match elseB with
          | some eb => execute fuel eb st1
          | none => .ok st1
        | _ => .err badVariantMsg st1
    | .forS init cond inc body _ =>
      match execute fuel init st with
      | .ok st1 => forLoop fuel cond inc body st1
      | r => r
    | .whileS cond body _ => whileLoop fuel cond body st
    | .returnS eOpt _ =>
      match eOpt with
      | some e =>
        match evaluate fuel e st with
        | .err m st1 => .err m st1
        | .timeout st1 => .timeout st1
        | .ok v st1 => .ret v st1
      | none =>
        -- `return;` leaves a null expression pointer; `evaluate(nullptr)`
        -- dereferences it (undefined behaviour in the source), modelled as an
        -- error.  No claim exercises a bare `return;`.
        .err "Unsupported expression type: null" st
    | .block ss _ => execList fuel ss st
    | .includeS fileName _ _ =>
      match lookupA st.files fileName with
      | none => .err ("Error: Could not open include file " ++ fileName) st
      | some stmts =>
        match execList fuel stmts st with
        | .ok st1 => .ok st1
        | .ret _ st1 => .err "Error in included file: Return" st1
        | .err m st1 => .err ("Error in included file: " ++ m) st1
        | .timeout st1 => .timeout st1
    | .exprStmt _ _ => .ok st
    | .readS _ _ _ => .ok st
    | .classDecl _ _ _ => .ok st

/-- `Interpreter::interpret` and the statement loops of `BlockStatement` and
included files: execute statements in order; a `ReturnException`
short-circuits. -/
def execList : Nat → List Stmt → InterpState → ExecRes
  | 0, _, st => .timeout st
  | _ + 1, [], st => .ok st
  | fuel + 1, s :: rest, st =>
    match execute fuel s st with
    | .ok st1 => execList fuel rest st1
    | r => r

/-- The loop of the `WhileStatement` branch:
`while (std::get<bool>(evaluate(cond))) execute(body);`.  Errors from the
condition surface at this frame; errors inside the body were already swallowed
by the body's own `execute`. -/
def whileLoop : Nat → Expr → Stmt → InterpState → ExecRes
  | 0, _, _, st => .timeout st
  | fuel + 1, cond, body, st =>
    match evaluate fuel cond st with
    | .err m st1 => .err m st1
    | .timeout st1 => .timeout st1
    | .ok v st1 =>
      match v with
      | .vBool true =>
        match execute fuel body st1 with
        | .ok st2 => whileLoop fuel cond body st2
        | r => r
      | .vBool false => .ok st1
      | _ => .err badVariantMsg st1

/-- The loop of the `ForStatement` branch:
`while (std::get<bool>(evaluate(cond))) { execute(body); execute(increment); }`. -/
def forLoop : Nat → Expr → Stmt → Stmt → InterpState → ExecRes
  | 0, _, _, _, st => .timeout st
  | fuel + 1, cond, inc, body, st =>
    match evaluate fuel cond st with
    | .err m st1 => .err m st1
    | .timeout st1 => .timeout st1
    | .ok v st1 =>
      match v with
      | .vBool true =>
        match execute fuel body st1 with
        | .ok st2 =>
          match execute fuel inc st2 with
          | .ok st3 => forLoop fuel cond inc body st3
          | r => r
        | r => r
      | .vBool false => .ok st1
      | _ => .err badVariantMsg st1
end

/-- Token kinds (`token.h`). -/
inductive TokenType where
  | keyword
  | identifier
  | number
  | operator
  | symbol
  | stringLit
  | eof
  | unknown
deriving DecidableEq, Repr

/-- A token (`token.h`): kind, raw text and the line the token started on. -/
structure Token where
  type : TokenType
  value : String
  line : Int
deriving DecidableEq, Repr

/-- The parser keeps a cursor into the token stream; `curTok` is
`currentToken`.  The lexer terminates every stream with an `EndOfFile` token;
an empty list behaves like one. -/
def curTok (toks : List Token) : Token :=
  match toks with
  | [] => ⟨.eof, "", 0⟩
  | t :: _ => t

/-- `Parser::peekNextToken`: look at the next token without consuming
(the C++ saves and restores the lexer cursor). -/
def peekTok (toks : List Token) : Token :=
  match toks with
  | _ :: t :: _ => t
  | _ => ⟨.eof, "", 0⟩

/-- Parser results: a value plus the remaining tokens, a thrown parse error,
or fuel exhaustion. -/
inductive ParseOut (α : Type) where
  | ok (a : α) (rest : List Token)
  | err (msg : String)
  | timeout
deriving Repr

/-- `Parser::getPrecedence` (part_006 lines 385-394).  Note: `%` has no case
and falls through to the default 0, the lowest precedence. -/
def getPrecedence (op : String) : Int :=
  if op = "||" then 1
  else if op = "&&" then 2
  else if op = "==" ∨ op = "!=" then 3
  else if op = "<" ∨ op = "<=" ∨ op = ">" ∨ op = ">=" then 4
  else if op = "+" ∨ op = "-" then 5
  else if op = "*" ∨ op = "/" then 6
  else if op = "++" ∨ op = "--" then 7
  else 0

/-- Wrap a statement parser result for `parseStatement`, which returns
`none` only at end of file. -/
def liftStmt : ParseOut Stmt → ParseOut (Option Stmt)
  | .ok s rest => .ok (some s) rest
  | .err m => .err m
  | .timeout => .timeout

mutual
/-- `Parser::parseStatement` (part_006 lines 65-144).  An identifier is always
treated as the start of a reassignment: the next token must be an operator
(any operator), the right-hand side is parsed, and the result is
`ExpressionStatement(BinaryExpression(op, Variable, rhs))`.  The second
identifier branch at lines 131-141 is dead code (the first one returned or
threw) and is omitted. -/
def parseStatement : Nat → List Token → ParseOut (Option Stmt)
  | 0, _ => .timeout
  | fuel + 1, toks =>
    let line := (curTok toks).line
    if (curTok toks).type = .eof then .ok none toks
    else if (curTok toks).type = .identifier then
      let varName := (curTok toks).value
      let toks1 := toks.tail
      if (curTok toks1).type = .operator then
        let op := (curTok toks1).value
        match parseExpression fuel 0 toks1.tail with
        | .err m => .err m
        | .timeout => .timeout
        | .ok rightExpr toks2 =>
          if (curTok toks2).value = ";" then
            .ok (some (.exprStmt (.bin op (.var varName line) rightExpr line) line)) toks2.tail
          else
            .err ("Expected \x27;\x27 after variable reassignment at line " ++ toString line)
      else .err ("Unexpected token after variable name at line " ++ toString line)
    else if (curTok toks).type = .keyword then
      let v := (curTok toks).value
      if v = "write" then liftStmt (parseWriteStatement fuel toks)
      else if v = "read" then liftStmt (parseReadStatement fuel toks)
      else if v = "let" then liftStmt (parseVariableDeclaration fuel toks)
      else if v = "const" then liftStmt (parseConstantDeclaration fuel toks)
      else if v = "if" then liftStmt (parseIfStatement fuel toks)
      else if v = "for" then liftStmt (parseForStatement fuel toks)
      else if v = "while" then liftStmt (parseWhileStatement fuel toks)
      else if v = "include" then liftStmt (parseIncludeStatement fuel toks)
      else if v = "class" then liftStmt (parseClassDeclaration fuel toks)
      else if v = "function" then liftStmt (parseFunctionDeclaration fuel toks)
      else if v = "return" then liftStmt (parseReturnStatement fuel toks)
      else .err ("Unexpected token: " ++ v ++ " at line " ++ toString line)
    else
      .err ("Unexpected token: " ++ (curTok toks).value ++ " at line " ++ toString line)

/-- `Parser::parseWriteStatement` (part_006 lines 146-168). -/
def parseWriteStatement : Nat → List Token → ParseOut Stmt
  | 0, _ => .timeout
  | fuel + 1, toks =>
    let line := (curTok toks).line
    let toks1 := toks.tail
    if (curTok toks1).value ≠ "(" then
      .err ("Expected \x27(\x27 after \x27write\x27 at line " ++ toString line)
    else
      match parseExpression fuel 0 toks1.tail with
      | .err m => .err m
      | .timeout => .timeout
      | .ok messageExpr toks2 =>
        if (curTok toks2).value ≠ ")" then
          .err ("Expected \x27)\x27 after expression at line " ++ toString line)
        else
          let toks3 := toks2.tail
          if (curTok toks3).value ≠ ";" then
            .err ("Expected \x27;\x27 after \x27write\x27 statement at line " ++ toString line)
          else .ok (.write messageExpr line) toks3.tail

/-- `Parser::parseReadStatement` (part_006 lines 170-208). -/
def parseReadStatement : Nat → List Token → ParseOut Stmt
  | 0, _ => .timeout
  | fuel + 1, toks =>
    let line := (curTok toks).line
    let toks1 := toks.tail
    if (curTok toks1).value ≠ "(" then
      .err ("Expected \x27(\x27 after \x27read\x27 at line " ++ toString line)
    else
      let afterParen := toks1.tail
      let promptRes : ParseOut (Option Expr) :=
        if (curTok afterParen).type = .stringLit then
          match parseExpression fuel 0 afterParen with
          | .ok p rest => .ok (some p) rest
          | .err m => .err m
          | .timeout => .timeout
        else .ok none afterParen
      match promptRes with
      | .err m => .err m
      | .timeout => .timeout
      | .ok prompt toks2 =>
        if (curTok toks2).value ≠ ")" then
          .err ("Expected \x27)\x27 after \x27read\x27 at line " ++ toString line)
        else
          let toks3 := toks2.tail
          if (curTok toks3).type = .identifier then
            let variableName := (curTok toks3).value
            let toks4 := toks3.tail
            if (curTok toks4).value ≠ ";" then
              .err "Expected \x27;\x27 after variable assignment in \x27read\x27 statement."
            else .ok (.readS (some (.var variableName line)) prompt line) toks4.tail
          else if (curTok toks3).value ≠ ";" then
            .err "Expected \x27;\x27 after \x27read\x27 statement."
          else .ok (.readS none prompt line) toks3.tail

/-- `Parser::parseReadExpression` (part_006 lines 210-230). -/
def parseReadExpression : Nat → List Token → ParseOut Expr
  | 0, _ => .timeout
  | fuel + 1, toks =>
    let line := (curTok toks).line
    let toks1 := toks.tail
    if (curTok toks1).value ≠ "(" then
      .err ("Expected \x27(\x27 after \x27read\x27 at line " ++ toString line)
    else
      let afterParen := toks1.tail
      let promptRes : ParseOut (Option Expr) :=
        if (curTok afterParen).type = .stringLit then
          match parseExpression fuel 0 afterParen with
          | .ok p rest => .ok (some p) rest
          | .err m => .err m
          | .timeout => .timeout
        else .ok none afterParen
      match promptRes with
      | .err m => .err m
      | .timeout => .timeout
      | .ok prompt toks2 =>
        if (curTok toks2).value ≠ ")" then
          .err ("Expected \x27)\x27 after \x27read\x27 at line " ++ toString line)
        else .ok (.readE prompt line) toks2.tail

/-- `Parser::parseVariableDeclaration` (part_006 lines 580-603): `let` always
produces a `VariableDeclaration` with type string `"auto"`. -/
def parseVariableDeclaration : Nat → List Token → ParseOut Stmt
  | 0, _ => .timeout
  | fuel + 1, toks =>
    let line := (curTok toks).line
    let toks1 := toks.tail
    if (curTok toks1).type ≠ .identifier then
      .err ("Expected variable name at line " ++ toString line)
    else
      let name := (curTok toks1).value
      let toks2 := toks1.tail
      let initRes : ParseOut (Option Expr) :=
        if (curTok toks2).value = "=" then
          match parseExpression fuel 0 toks2.tail with
          | .ok e rest => .ok (some e) rest
          | .err m => .err m
          | .timeout => .timeout
        else .ok none toks2
      match initRes with
      | .err m => .err m
      | .timeout => .timeout
      | .ok init toks3 =>
        if (curTok toks3).value ≠ ";" then
          .err ("Expected \x27;\x27 after variable declaration at line " ++ toString line)
        else .ok (.varDecl "auto" name init line) toks3.tail

/-- `Parser::parseConstantDeclaration` (part_006 lines 605-629). -/
def parseConstantDeclaration : Nat → List Token → ParseOut Stmt
  | 0, _ => .timeout
  | fuel + 1, toks =>
    let line := (curTok toks).line
    let toks1 := toks.tail
    if (curTok toks1).type ≠ .identifier then
      .err ("Expected constant name at line " ++ toString line)
    else
      let name := (curTok toks1).value
      let toks2 := toks1.tail
      if (curTok toks2).value ≠ "=" then
        .err ("Expected \x27=\x27 after constant name at line " ++ toString line)
      else
        match parseExpression fuel 0 toks2.tail with
        | .err m => .err m
        | .timeout => .timeout
        | .ok init toks3 =>
          if (curTok toks3).value ≠ ";" then
            .err ("Expected \x27;\x27 after constant declaration at line " ++ toString line)
          else .ok (.varDecl "const" name (some init) line) toks3.tail

/-- `Parser::parseIfStatement` (part_006 lines 254-279). -/
def parseIfStatement : Nat → List Token → ParseOut Stmt
  | 0, _ => .timeout
  | fuel + 1, toks =>
    let line := (curTok toks).line
    let toks1 := toks.tail
    if (curTok toks1).value ≠ "(" then
      .err ("Expected \x27(\x27 after \x27if\x27 at line " ++ toString line)
    else
      match parseExpression fuel 0 toks1.tail with
      | .err m => .err m
      | .timeout => .timeout
      | .ok condition toks2 =>
        if (curTok toks2).value ≠ ")" then
          .err ("Expected \x27)\x27 after condition at line " ++ toString line)
        else
          match parseBlockStatement fuel toks2.tail with
          | .err m => .err m
          | .timeout => .timeout
          | .ok thenBranch toks3 =>
            if (curTok toks3).value = "else" then
              match parseBlockStatement fuel toks3.tail with
              | .err m => .err m
              | .timeout => .timeout
              | .ok elseBranch toks4 =>
                  .ok (.ifS condition thenBranch (some elseBranch) line) toks4
            else .ok (.ifS condition thenBranch none line) toks3

/-- `Parser::parseWhileStatement` (part_006 lines 281-299). -/
def parseWhileStatement : Nat → List Token → ParseOut Stmt
  | 0, _ => .timeout
  | fuel + 1, toks =>
    let line := (curTok toks).line
    let toks1 := toks.tail
    if (curTok toks1).value ≠ "(" then
      .err ("Expected \x27(\x27 after \x27while\x27 at line " ++ toString line)
    else
      match parseExpression fuel 0 toks1.tail with
      | .err m => .err m
      | .timeout => .timeout
      | .ok condition toks2 =>
        if (curTok toks2).value ≠ ")" then
          .err ("Expected \x27)\x27 after condition at line " ++ toString line)
        else
          match parseBlockStatement fuel toks2.tail with
          | .err m => .err m
          | .timeout => .timeout
          | .ok body toks3 => .ok (.whileS condition body line) toks3

/-- `Parser::parseForStatement` (part_006 lines 301-335).  A non-`let`
initializer is parsed as a bare expression wrapped in an
`ExpressionStatement` (no semicolon is consumed after it); the increment is
likewise wrapped. -/
def parseForStatement : Nat → List Token → ParseOut Stmt
  | 0, _ => .timeout
  | fuel + 1, toks =>
    let line := (curTok toks).line
    let toks1 := toks.tail
    if (curTok toks1).value ≠ "(" then
      .err ("Expected \x27(\x27 after \x27for\x27 at line " ++ toString line)
    else
      let afterParen := toks1.tail
      let initRes : ParseOut Stmt :=
        if (curTok afterParen).type = .keyword ∧ (curTok afterParen).value = "let" then
          parseVariableDeclaration fuel afterParen
        else
          match parseExpression fuel 0 afterParen with
          | .ok e rest => .ok (.exprStmt e line) rest
          | .err m => .err m
          | .timeout => .timeout
      match initRes with
      | .err m => .err m
      | .timeout => .timeout
      | .ok init toks2 =>
        match parseExpression fuel 0 toks2 with
        | .err m => .err m
        | .timeout => .timeout
        | .ok condition toks3 =>
          if (curTok toks3).value ≠ ";" then
            .err ("Expected \x27;\x27 after condition in \x27for\x27 statement at line " ++ toString line)
          else
            match parseExpression fuel 0 toks3.tail with
            | .err m => .err m
            | .timeout => .timeout
            | .ok incrementExpr toks4 =>
              if (curTok toks4).value ≠ ")" then
                .err ("Expected \x27)\x27 after increment in \x27for\x27 statement at line " ++ toString line)
              else
                match parseBlockStatement fuel toks4.tail with
                | .err m => .err m
                | .timeout => .timeout
                | .ok body toks5 =>
                    .ok (.forS init condition (.exprStmt incrementExpr line) body line) toks5

/-- The dotted-name loop of `Parser::parseIncludeStatement`. -/
def parseDotTail : Nat → String → Int → List Token → ParseOut String
  | 0, _, _, _ => .timeout
  | fuel + 1, acc, line, toks =>
    if (curTok toks).value = "." then
      let toks1 := toks.tail
      if (curTok toks1).type = .identifier then
        parseDotTail fuel (acc ++ "." ++ (curTok toks1).value) line toks1.tail
      else
        .err ("Expected identifier after \x27.\x27 in include statement at line " ++ toString line)
    else .ok acc toks

/-- `Parser::parseIncludeStatement` (part_006 lines 337-383). -/
def parseIncludeStatement : Nat → List Token → ParseOut Stmt
  | 0, _ => .timeout
  | fuel + 1, toks =>
    let line := (curTok toks).line
    let toks1 := toks.tail
    let targetRes : ParseOut (Option Expr) :=
      if (curTok toks1).type = .identifier then
        match parseDotTail fuel (curTok toks1).value line toks1.tail with
        | .ok targetName rest => .ok (some (.var targetName line)) rest
        | .err m => .err m
        | .timeout => .timeout
      else .ok none toks1
    match targetRes with
    | .err m => .err m
    | .timeout => .timeout
    | .ok target toks2 =>
      if (curTok toks2).value ≠ "from" then
        .err ("Expected \x27from\x27 in include statement at line " ++ toString line)
      else
        let toks3 := toks2.tail
        if (curTok toks3).type ≠ .stringLit then
          .err ("Expected string literal after \x27from\x27 in include statement at line " ++ toString line)
        else
          let fileName := (curTok toks3).value
          let toks4 := toks3.tail
          if (curTok toks4).value ≠ ";" then
            .err ("Expected \x27;\x27 after include statement at line " ++ toString line)
          else .ok (.includeS fileName target line) toks4.tail

/-- `Parser::parseReturnStatement` (part_006 lines 631-651): the value is
omitted before `;`, `}` or end of file; the terminating semicolon is optional
at a block boundary. -/
def parseReturnStatement : Nat → List Token → ParseOut Stmt
  | 0, _ => .timeout
  | fuel + 1, toks =>
    let line := (curTok toks).line
    let toks1 := toks.tail
    let valueRes : ParseOut (Option Expr) :=
      if (curTok toks1).value ≠ ";" ∧ (curTok toks1).value ≠ "\x7d" ∧
          (curTok toks1).type ≠ .eof then
        match parseExpression fuel 0 toks1 with
        | .ok e rest => .ok (some e) rest
        | .err m => .err m
        | .timeout => .timeout
      else .ok none toks1
    match valueRes with
    | .err m => .err m
    | .timeout => .timeout
    | .ok returnValue toks2 =>
      if (curTok toks2).value = ";" then .ok (.returnS returnValue line) toks2.tail
      else if (curTok toks2).value = "\x7d" ∨ (curTok toks2).type = .eof then
        .ok (.returnS returnValue line) toks2
      else .err ("Expected \x27;\x27 after return statement at line " ++ toString line)

/-- `Parser::parseBlockStatement` (part_006 lines 653-676).  Without `{` a
single statement is parsed (EOF, i.e. a null `parseStatement` result, is
"Invalid statement inside block").  With `{` the statements run to `}`; the
`BlockStatement` line is `currentToken.line` after the closing brace was
consumed. -/
def parseBlockStatement : Nat → List Token → ParseOut Stmt
  | 0, _ => .timeout
  | fuel + 1, toks =>
    if (curTok toks).value ≠ "\x7b" then
      match parseStatement fuel toks with
      | .err m => .err m
      | .timeout => .timeout
      | .ok none rest =>
          .err ("Invalid statement inside block at line " ++ toString (curTok rest).line)
      | .ok (some s) rest => .ok s rest
    else
      match parseBlockList fuel toks.tail with
      | .err m => .err m
      | .timeout => .timeout
      | .ok stmts rest =>
        let afterBrace := rest.tail
        .ok (.block stmts (curTok afterBrace).line) afterBrace

/-- The statement loop of `parseBlockStatement`: parse until `}`; a null
`parseStatement` result (end of file) is "Invalid statement in block". -/
def parseBlockList : Nat → List Token → ParseOut (List Stmt)
  | 0, _ => .timeout
  | fuel + 1, toks =>
    if (curTok toks).value = "\x7d" then .ok [] toks
    else
      match parseStatement fuel toks with
      | .err m => .err m
      | .timeout => .timeout
      | .ok none rest =>
          .err ("Invalid statement in block at line " ++ toString (curTok rest).line)
      | .ok (some s) rest =>
        match parseBlockList fuel rest with
        | .ok ss rest2 => .ok (s :: ss) rest2
        | .err m => .err m
        | .timeout => .timeout

/-- The parameter-list loop shared (textually duplicated in the C++) by
`parseFunctionDeclaration` and `parseMethodDeclaration`; `nameMsg` is the
respective "Expected parameter name ..." prefix.  Stops at `)` without
consuming it. -/
def parseParamList : Nat → String → Int → List Token → ParseOut (List String)
  | 0, _, _, _ => .timeout
  | fuel + 1, nameMsg, line, toks =>
    if (curTok toks).value = ")" then .ok [] toks
    else if (curTok toks).type ≠ .identifier then
      .err (nameMsg ++ toString line)
    else
      let p := (curTok toks).value
      let toks1 := toks.tail
      if (curTok toks1).value = "," then
        match parseParamList fuel nameMsg line toks1.tail with
        | .ok ps rest => .ok (p :: ps) rest
        | .err m => .err m
        | .timeout => .timeout
      else if (curTok toks1).value ≠ ")" then
        .err ("Expected \x27,\x27 or \x27)\x27 in parameter list at line " ++ toString line)
      else .ok [p] toks1

/-- `Parser::parseFunctionDeclaration` (part_006 lines 678-726).  The body is
the single parsed block, stored as a one-element statement list (see
`Stmt.funcDecl`). -/
def parseFunctionDeclaration : Nat → List Token → ParseOut Stmt
  | 0, _ => .timeout
  | fuel + 1, toks =>
    let line := (curTok toks).line
    if (curTok toks).value ≠ "function" then
      .err ("Expected \x27function\x27 keyword at line " ++ toString line)
    else
      let toks1 := toks.tail
      if (curTok toks1).type ≠ .identifier then
        .err ("Expected function name after \x27function\x27 at line " ++ toString line)
      else
        let functionName := (curTok toks1).value
        if functionName = "" then .err "Function name is missing."
        else
          let toks2 := toks1.tail
          if (curTok toks2).value ≠ "(" then
            .err ("Expected \x27(\x27 after function name at line " ++ toString line)
          else
            match parseParamList fuel
                "Expected parameter name in function declaration at line " line toks2.tail with
            | .err m => .err m
            | .timeout => .timeout
            | .ok parameters toks3 =>
              match parseBlockStatement fuel toks3.tail with
              | .err m => .err m
              | .timeout => .timeout
              | .ok body toks4 =>
                  .ok (.funcDecl functionName parameters [body] line) toks4

/-- `Parser::parseClassDeclaration` (part_006 lines 495-528). -/
def parseClassDeclaration : Nat → List Token → ParseOut Stmt
  | 0, _ => .timeout
  | fuel + 1, toks =>
    let line := (curTok toks).line
    let toks1 := toks.tail
    if (curTok toks1).type ≠ .identifier then
      .err ("Expected class name after \x27class\x27 at line " ++ toString line)
    else
      let className := (curTok toks1).value
      let toks2 := toks1.tail
      if (curTok toks2).value ≠ "\x7b" then
        .err ("Expected \x27\x7b\x27 after class name at line " ++ toString line)
      else
        match parseClassMembers fuel toks2.tail with
        | .err m => .err m
        | .timeout => .timeout
        | .ok members rest =>
            .ok (.classDecl className members line) rest.tail

/-- The member loop of `parseClassDeclaration`: default modifier `private`,
optional access keyword, then method (next-next token `(`) or field. -/
def parseClassMembers : Nat → List Token → ParseOut (List ClassMember)
  | 0, _ => .timeout
  | fuel + 1, toks =>
    if (curTok toks).value = "\x7d" then .ok [] toks
    else
      let hasModifier : Bool :=
        (curTok toks).value = "public" ∨ (curTok toks).value = "private" ∨
          (curTok toks).value = "protected"
      let modifier := if hasModifier then (curTok toks).value else "private"
      let toks1 := if hasModifier then toks.tail else toks
      let memberRes : ParseOut ClassMember :=
        if (peekTok toks1).value = "(" then parseMethodDeclaration fuel modifier toks1
        else parseFieldDeclaration fuel modifier toks1
      match memberRes with
      | .err m => .err m
      | .timeout => .timeout
      | .ok member rest =>
        match parseClassMembers fuel rest with
        | .ok ms rest2 => .ok (member :: ms) rest2
        | .err m => .err m
        | .timeout => .timeout

/-- `Parser::parseFieldDeclaration` (part_006 lines 530-548). -/
def parseFieldDeclaration : Nat → String → List Token → ParseOut ClassMember
  | 0, _, _ => .timeout
  | _ + 1, modifier, toks =>
    let line := (curTok toks).line
    let fieldType := (curTok toks).value
    let toks1 := toks.tail
    if (curTok toks1).type ≠ .identifier then
      .err ("Expected field name at line " ++ toString line)
    else
      let fieldName := (curTok toks1).value
      let toks2 := toks1.tail
      if (curTok toks2).value ≠ ";" then
        .err ("Expected \x27;\x27 after field declaration at line " ++ toString line)
      else .ok (.fieldD modifier fieldType fieldName line) toks2.tail

/-- `Parser::parseMethodDeclaration` (part_006 lines 550-578). -/
def parseMethodDeclaration : Nat → String → List Token → ParseOut ClassMember
  | 0, _, _ => .timeout
  | fuel + 1, modifier, toks =>
    let line := (curTok toks).line
    let methodName := (curTok toks).value
    let toks1 := toks.tail
    if (curTok toks1).value ≠ "(" then
      .err ("Expected \x27(\x27 after method name at line " ++ toString line)
    else
      match parseParamList fuel "Expected parameter name at line " line toks1.tail with
      | .err m => .err m
      | .timeout => .timeout
      | .ok parameters toks2 =>
        match parseBlockStatement fuel toks2.tail with
        | .err m => .err m
        | .timeout => .timeout
        | .ok body toks3 =>
            .ok (.methodD modifier methodName parameters body line) toks3

/-- `Parser::parseExpression` (part_006 lines 396-450), with the default
argument `minPrecedence = 0` from `parser.h`.  After the precedence-climbing
loop, a `(` starts a call suffix whose head must have parsed as a plain
variable.  Note `read` returns immediately and `let` throws. -/
def parseExpression : Nat → Int → List Token → ParseOut Expr
  | 0, _, _ => .timeout
  | fuel + 1, minPrecedence, toks =>
    if (curTok toks).type = .keyword ∧ (curTok toks).value = "let" then
      .err "Unexpected \x27let\x27 in expression. Did you mean to declare a variable?"
    else if (curTok toks).type = .keyword ∧ (curTok toks).value = "read" then
      parseReadExpression fuel toks
    else
      match parsePrimary fuel toks with
      | .err m => .err m
      | .timeout => .timeout
      | .ok left toks1 =>
        match binOpLoop fuel minPrecedence left toks1 with
        | .err m => .err m
        | .timeout => .timeout
        | .ok left2 toks2 =>
          if (curTok toks2).value = "(" then
            match callArgsLoop fuel toks2.tail with
            | .err m => .err m
            | .timeout => .timeout
            | .ok args toks3 =>
              let toks4 := toks3.tail
              match left2 with
              | .var fname _ => .ok (.call fname args (curTok toks4).line) toks4
              | _ =>
                  .err ("Invalid function name in call at line " ++ toString (curTok toks4).line)
          else .ok left2 toks2

/-- The binary-operator loop of `parseExpression`:
`while current is an operator with precedence >= minPrecedence`, consume it
and parse the right side at `precedence + 1` (left associativity).  The
`BinaryExpression` receives `currentToken.line`, i.e. the line of the
lookahead after the right operand. -/
def binOpLoop : Nat → Int → Expr → List Token → ParseOut Expr
  | 0, _, _, _ => .timeout
  | fuel + 1, minPrecedence, left, toks =>
    let c := curTok toks
    if c.type = .operator ∧ getPrecedence c.value ≥ minPrecedence then
      match parseExpression fuel (getPrecedence c.value + 1) toks.tail with
      | .err m => .err m
      | .timeout => .timeout
      | .ok right toks1 =>
          binOpLoop fuel minPrecedence (.bin c.value left right (curTok toks1).line) toks1
    else .ok left toks

/-- The argument loop of the call suffix in `parseExpression`: arguments until
`)` (left unconsumed), separated by `,`. -/
def callArgsLoop : Nat → List Token → ParseOut (List Expr)
  | 0, _ => .timeout
  | fuel + 1, toks =>
    if (curTok toks).type = .symbol ∧ (curTok toks).value = ")" then .ok [] toks
    else
      match parseExpression fuel 0 toks with
      | .err m => .err m
      | .timeout => .timeout
      | .ok arg toks1 =>
        if (curTok toks1).value = "," then
          match callArgsLoop fuel toks1.tail with
          | .ok args toks2 => .ok (arg :: args) toks2
          | .err m => .err m
          | .timeout => .timeout
        else if (curTok toks1).value = ")" then .ok [arg] toks1
        else
          .err ("Expected \x27,\x27 or \x27)\x27 in function call at line " ++
            toString (curTok toks1).line)

/-- `Parser::parsePrimary` (part_006 lines 452-493): identifier (with postfix
`++`/`--` producing a `UnaryExpression`), number (via `std::stod`), string
literal, or parenthesized expression. -/
def parsePrimary : Nat → List Token → ParseOut Expr
  | 0, _ => .timeout
  | fuel + 1, toks =>
    let line := (curTok toks).line
    if (curTok toks).type = .identifier then
      let name := (curTok toks).value
      let toks1 := toks.tail
      if (curTok toks1).value = "++" ∨ (curTok toks1).value = "--" then
        .ok (.unary (curTok toks1).value (.var name line) line) toks1.tail
      else .ok (.var name line) toks1
    else if (curTok toks).type = .number then
      .ok (.num (parseDecimal (curTok toks).value) line) toks.tail
    else if (curTok toks).type = .stringLit then
      .ok (.str (curTok toks).value line) toks.tail
    else if (curTok toks).value = "(" then
      match parseExpression fuel 0 toks.tail with
      | .err m => .err m
      | .timeout => .timeout
      | .ok e toks1 =>
        if (curTok toks1).value = ")" then .ok e toks1.tail
        else .err ("Expected \x27)\x27 after expression at line " ++ toString line)
    else .err ("Unexpected token in expression at line " ++ toString line)
end

/-- The parse loop of `main` (src/FoxL.cpp): `while (auto ast = parser.parse())`
collects statements until `parse` returns null at end of file (every node the
parser produces is a `Statement`, so the `dynamic_cast` filter always
succeeds). -/
def parseProgramTokens : Nat → List Token → ParseOut (List Stmt)
  | 0, _ => .timeout
  | fuel + 1, toks =>
    match parseStatement fuel toks with
    | .err m => .err m
    | .timeout => .timeout
    | .ok none rest => .ok [] rest
    | .ok (some s) rest =>
      match parseProgramTokens fuel rest with
      | .ok ss rest2 => .ok (s :: ss) rest2
      | .err m => .err m
      | .timeout => .timeout

/-- The fresh interpreter state at startup. -/
def initState (inp : List String) (files : List (String × List Stmt)) : InterpState :=
  { vars := [], functions := [], outBuf := "", errBuf := [], inBuf := inp, files := files }

/-- The run phase of `main` (src/FoxL.cpp lines 23-39), from tokenization
onward: parse everything, then interpret.  Returns
`(exit code, stdout, stderr)`.  A parse error is caught by `main` and exits 1;
the interpreter run exits 0 (its evaluation errors were already printed and
swallowed inside `execute`); a `ReturnException` escaping a top-level
statement reaches the catch in `main` (message `"Return"`) and exits 1.
`none` models non-termination. -/
def runProgram (fuel : Nat) (toks : List Token) (inp : List String)
    (files : List (String × List Stmt)) : Option (Nat × String × List String) :=
  match parseProgramTokens fuel toks with
  | .timeout => none
  | .err m => some (1, "", ["Error: " ++ m])
  | .ok stmts _ =>
    match execList fuel stmts (initState inp files) with
    | .ok st => some (0, st.outBuf, st.errBuf)
    | .ret _ st => some (1, st.outBuf, st.errBuf ++ ["Error: Return"])
    | .err m st => some (1, st.outBuf, st.errBuf ++ ["Error: " ++ m])
    | .timeout _ => none

/-! ### Concrete tokens, programs and states used by the claim theorems

The token lists below are the lexer output for the quoted one-line sources
(the lexer itself is not under test by any claim; kinds follow the scanning
rules: keywords, identifiers, digit lexemes, operator lead bytes, and the
symbols `;(){}[],:.@`). -/

/-- Keyword token on line 1. -/
def kwTok (s : String) : Token := ⟨.keyword, s, 1⟩

/-- Identifier token on line 1. -/
def idTok (s : String) : Token := ⟨.identifier, s, 1⟩

/-- Operator token on line 1. -/
def opTok (s : String) : Token := ⟨.operator, s, 1⟩

/-- Number token on line 1. -/
def numTok (s : String) : Token := ⟨.number, s, 1⟩

/-- Symbol token on line 1. -/
def symTok (s : String) : Token := ⟨.symbol, s, 1⟩

/-- The terminating `EndOfFile` token (line 1 for one-line sources). -/
def eofTok : Token := ⟨.eof, "", 1⟩

/-- Tokens of `const c = 7; c = 8;` (spec scenario 5). -/
def c1Toks : List Token :=
  [kwTok "const", idTok "c", opTok "=", numTok "7", symTok ";",
   idTok "c", opTok "=", numTok "8", symTok ";", eofTok]

/-- The AST the parser produces for `const c = 7; c = 8;`. -/
def c1Prog : List Stmt :=
  [.varDecl "const" "c" (some (.num 7 1)) 1,
   .exprStmt (.bin "=" (.var "c" 1) (.num 8 1) 1) 1]

/-- The final interpreter state of the `const c = 7; c = 8;` run. -/
def c1Final : InterpState :=
  { vars := [("c", ⟨.vInt 7, true⟩)], functions := [], outBuf := "",
    errBuf := [], inBuf := [], files := [] }

/-- Tokens of `write(x);` with `x` unbound. -/
def c2Toks : List Token :=
  [kwTok "write", symTok "(", idTok "x", symTok ")", symTok ";", eofTok]

/-- A single token that no `parseStatement` branch accepts (for the
parse-error half of the amended C2 claim). -/
def c2BadToks : List Token := [opTok "+", eofTok]

/-- Caller state for the C3 counterexample: `x = 1`, and a function `f(p)`
with an empty body. -/
def stC3 : InterpState :=
  { vars := [("x", ⟨.vInt 1, false⟩)], functions := [("f", (["p"], []))],
    outBuf := "", errBuf := [], inBuf := [], files := [] }

/-- `stC3` after the call `f(x = 5)`: the argument assignment leaked into the
caller binding. -/
def stC3r : InterpState :=
  { vars := [("x", ⟨.vInt 5, false⟩)], functions := [("f", (["p"], []))],
    outBuf := "", errBuf := [], inBuf := [], files := [] }

/-- State for the C3 amended witness: a function `h(q)` whose body writes a
constant and then returns 9. -/
def stC3w : InterpState :=
  { vars := [("y", ⟨.vInt 4, false⟩)],
    functions := [("h", (["q"], [.returnS (some (.num 9 1)) 1]))],
    outBuf := "", errBuf := [], inBuf := [], files := [] }

/-- State for the C4 counterexample: one mutable binding `x = 1`. -/
def stC4 : InterpState :=
  { vars := [("x", ⟨.vInt 1, false⟩)], functions := [], outBuf := "",
    errBuf := [], inBuf := [], files := [] }

/-- `stC4` with `x = 5` (after the discarded operand of `&&` ran anyway). -/
def stC4a : InterpState :=
  { vars := [("x", ⟨.vInt 5, false⟩)], functions := [], outBuf := "",
    errBuf := [], inBuf := [], files := [] }

/-- `stC4` with `x = 7` (after the discarded operand of `||` ran anyway). -/
def stC4b : InterpState :=
  { vars := [("x", ⟨.vInt 7, false⟩)], functions := [], outBuf := "",
    errBuf := [], inBuf := [], files := [] }

/-- State for the C5 witness: `a = [10, 20, 30]` and `m = -1`. -/
def stC5 : InterpState :=
  { vars := [("a", ⟨.vIntArr [10, 20, 30], false⟩), ("m", ⟨.vInt (-1), false⟩)],
    functions := [], outBuf := "", errBuf := [], inBuf := [], files := [] }

/-- State for the C6 counterexample: `x` holds the float 3.0 (the value the
built-in `read` produces for the input line `3.0`). -/
def stC6 : InterpState :=
  { vars := [("x", ⟨.vFloat 3, false⟩)], functions := [], outBuf := "",
    errBuf := [], inBuf := [], files := [] }

/-- State for the C7 counterexample: a function `g()` with an empty body. -/
def stC7 : InterpState :=
  { vars := [], functions := [("g", ([], []))], outBuf := "", errBuf := [],
    inBuf := [], files := [] }

/-- Tokens of the expression `a + b * c`. -/
def c8aToks : List Token :=
  [idTok "a", opTok "+", idTok "b", opTok "*", idTok "c", eofTok]

/-- Tokens of the expression `a - b - c`. -/
def c8bToks : List Token :=
  [idTok "a", opTok "-", idTok "b", opTok "-", idTok "c", eofTok]

/-- Tokens of the expression `a % b + c`. -/
def c8cToks : List Token :=
  [idTok "a", opTok "%", idTok "b", opTok "+", idTok "c", eofTok]

/-- Parse of `a + b * c`: the multiplication under the addition. -/
def c8aTree : Expr :=
  .bin "+" (.var "a" 1) (.bin "*" (.var "b" 1) (.var "c" 1) 1) 1

/-- Parse of `a - b - c`: left associated. -/
def c8bTree : Expr :=
  .bin "-" (.bin "-" (.var "a" 1) (.var "b" 1) 1) (.var "c" 1) 1

/-- Parse of `a % b + c`: the ADDITION under the MODULO (since `%` has
default precedence 0). -/
def c8cTree : Expr :=
  .bin "%" (.var "a" 1) (.bin "+" (.var "b" 1) (.var "c" 1) 1) 1

mutual
/-- All subterms of an expression (the expression itself included). -/
def exprSubterms : Expr → List Expr
  | .num v l => [.num v l]
  | .str s l => [.str s l]
  | .boolE b l => [.boolE b l]
  | .var n l => [.var n l]
  | .bin op a b l => .bin op a b l :: (exprSubterms a ++ exprSubterms b)
  | .readE none l => [.readE none l]
  | .readE (some p) l => .readE (some p) l :: exprSubterms p
  | .indexE a i l => .indexE a i l :: (exprSubterms a ++ exprSubterms i)
  | .arr es l => .arr es l :: exprSubtermsList es
  | .call f args l => .call f args l :: exprSubtermsList args
  | .unary op e l => .unary op e l :: exprSubterms e

/-- Subterms of a list of expressions. -/
def exprSubtermsList : List Expr → List Expr
  | [] => []
  | e :: rest => exprSubterms e ++ exprSubtermsList rest
end

/-- Is the expression a binary node with the given operator? -/
def isBinOp (op : String) : Expr → Bool
  | .bin op2 _ _ _ => op2 == op
  | _ => false

/-- Does some `outerOp` binary node of `e` have an `innerOp` binary node in
its subtree?  ("the `innerOp` is a subtree of the `outerOp`"). -/
def opInsideOp (outerOp innerOp : String) (e : Expr) : Bool :=
  (exprSubterms e).any fun a =>
    isBinOp outerOp a && (exprSubterms a).any (isBinOp innerOp)

/-- Tokens of `i = i + 1;`. -/
def c9Toks : List Token :=
  [idTok "i", opTok "=", idTok "i", opTok "+", numTok "1", symTok ";", eofTok]

/-- The AST the parser produces for `i = i + 1;`: an `ExpressionStatement`
wrapping the assignment `BinaryExpression`. -/
def c9Stmt : Stmt :=
  .exprStmt (.bin "=" (.var "i" 1) (.bin "+" (.var "i" 1) (.num 1 1) 1) 1) 1

/-! ### Claim theorems -/

/-- Claim C2 (amended): a parse error makes the run exit 1 with the message
on stderr; once parsing succeeds, evaluation errors in top-level statements
are printed to stderr by `execute` and swallowed, and the process exits 0
regardless of how many such errors occurred. -/
theorem c2_amended_tolerant_evaluation_errors :
    ∀ (fuel : Nat) (toks : List Token) (inp : List String)
      (files : List (String × List Stmt)),
      (∀ m, parseProgramTokens fuel toks = .err m →
        runProgram fuel toks inp files = some (1, "", ["Error: " ++ m])) ∧
      (∀ stmts rest st1,
        parseProgramTokens fuel toks = .ok stmts rest →
        execList fuel stmts (initState inp files) = .ok st1 →
        runProgram fuel toks inp files = some (0, st1.outBuf, st1.errBuf)) := by
  intro fuel toks inp files
  constructor
  · intro m hp
    simp only [runProgram, hp]
  · intro stmts rest st1 hp hx
    simp only [runProgram, hp, hx]

/-- Witness for the amended C2: the unparsable input `+` exits 1 with the
parse error on stderr, while `write(x);` (an evaluation error: `x` is
unbound) exits 0 with the error printed to stderr. -/
theorem c2_amended_witness :
    runProgram 32 c2BadToks [] [] =
      some (1, "", ["Error: Unexpected token: + at line 1"]) ∧
    runProgram 32 c2Toks [] [] =
      some (0, "", ["Error executing statement: Undefined variable: x at line 1"]) := by
  constructor
  · exact (c2_amended_tolerant_evaluation_errors 32 c2BadToks [] []).1 _ rfl
  · exact (c2_amended_tolerant_evaluation_errors 32 c2Toks [] []).2 _ _ _ rfl rfl

/-- Claim C3 (counterexample): the call `f(x = 5)` (an assignment expression
in argument position) completes by fall-through, yet afterwards the caller
binding `x` changed from 1 to 5 — caller bindings are NOT always the same
before and after a completed call. -/
theorem c3_argument_assignment_visible_to_caller :
    evaluate 8 (.call "f" [.bin "=" (.var "x" 1) (.num 5 1) 1] 1) stC3 =
      .ok (.vInt 0) stC3r ∧
    lookupA stC3.vars "x" = some ⟨.vInt 1, false⟩ ∧
    lookupA stC3r.vars "x" = some ⟨.vInt 5, false⟩ :=
  ⟨rfl, rfl, rfl⟩

/-- Claim C3 (amended): whenever a call completes with a value (by `Return`
or by fall-through), the caller bindings afterwards equal the bindings in
effect immediately after argument evaluation: every mutation made by the
function body is confined to the callee snapshot environment and is invisible
to the caller (only argument-evaluation side effects can persist). -/
theorem c3_amended_body_mutations_confined :
    ∀ (fuel : Nat) (fname : String) (args : List Expr) (L : Int)
      (st st1 : InterpState) (params : List String) (body : List Stmt)
      (locals : List (String × VarEntry)),
      lookupA st.functions fname = some (params, body) →
      params.length = args.length →
      evalBindArgs fuel params args st.vars st = .ok locals st1 →
      ∀ (v : Value) (st2 : InterpState),
        evaluate (fuel + 2) (.call fname args L) st = .ok v st2 →
        st2.vars = st1.vars := by
  intro fuel fname args L st st1 params body locals hf ha hb v st2 hcall
  have hlen : ¬ params.length ≠ args.length := by simp [ha]
  rw [show fuel + 2 = fuel + 1 + 1 from rfl] at hcall
  simp only [evaluate, evaluateFunctionCallExpression, hf, hb, if_neg hlen] at hcall
  cases hx : execList fuel body { st1 with vars := locals } with
  | ok st3 =>
      rw [hx] at hcall
      simp only [wrapLine] at hcall
      cases hcall
      rfl
  | ret v2 st3 =>
      rw [hx] at hcall
      simp only [wrapLine] at hcall
      cases hcall
      rfl
  | err m st3 =>
      rw [hx] at hcall
      simp only [wrapLine] at hcall
      exact absurd hcall (by simp)
  | timeout st3 =>
      rw [hx] at hcall
      simp only [wrapLine] at hcall
      exact absurd hcall (by simp)

/-- Witness for the amended C3: calling `h(2)` where `h(q)` returns 9 leaves
the caller bindings exactly as they were after argument evaluation. -/
theorem c3_amended_witness :
    evaluate 8 (.call "h" [.num 2 1] 1) stC3w = .ok (.vInt 9) stC3w ∧
    stC3w.vars = stC3w.vars := by
  refine ⟨rfl, ?_⟩
  exact c3_amended_body_mutations_confined 6 "h" [.num 2 1] 1 stC3w stC3w ["q"]
    [.returnS (some (.num 9 1)) 1] _ rfl rfl rfl (.vInt 9) stC3w rfl

/-- Claim C4 (counterexample): evaluating `false && (x = 5)` runs the
side-effecting right operand anyway (`x` becomes 5) and then fails with
`Unsupported binary operator: &&` instead of yielding `false`; likewise for
`true || (x = 7)`.  There is no short-circuiting: both operands are evaluated
eagerly and neither `&&` nor `||` has an evaluation branch at all. -/
theorem c4_operands_evaluated_and_operator_unsupported :
    evaluate 8 (.bin "&&" (.boolE false 1) (.bin "=" (.var "x" 1) (.num 5 1) 1) 1) stC4 =
      .err "Unsupported binary operator: && at line 1" stC4a ∧
    lookupA stC4a.vars "x" = some ⟨.vInt 5, false⟩ ∧
    evaluate 8 (.bin "||" (.boolE true 1) (.bin "=" (.var "x" 1) (.num 7 1) 1) 1) stC4 =
      .err "Unsupported binary operator: || at line 1" stC4b ∧
    lookupA stC4b.vars "x" = some ⟨.vInt 7, false⟩ :=
  ⟨rfl, rfl, rfl, rfl⟩

/-- Claim C4 (amended): for `&&` and `||` the evaluator first evaluates BOTH
operands (all side effects of the right operand occur), then throws
`Unsupported binary operator` — the discarded side is always evaluated and no
boolean result is ever produced. -/
theorem c4_amended_no_short_circuit :
    ∀ (fuel : Nat) (op : String) (l r : Expr) (L : Int)
      (st st1 st2 : InterpState) (vl vr : Value),
      op = "&&" ∨ op = "||" →
      evaluate fuel l st = .ok vl st1 →
      evaluate fuel r st1 = .ok vr st2 →
      evaluate (fuel + 2) (.bin op l r L) st =
        .err ("Unsupported binary operator: " ++ op ++ " at line " ++ toString L) st2 := by
  intro fuel op l r L st st1 st2 vl vr hop h1 h2
  rw [show fuel + 2 = fuel + 1 + 1 from rfl]
  rcases hop with h | h <;> subst h <;>
    simp only [evaluate, evaluateBinaryExpression, h1, h2] <;> rfl

/-- Witness for the amended C4: `false && 3` errors (after evaluating both
sides), as does `true || 3`. -/
theorem c4_amended_witness :
    evaluate 5 (.bin "&&" (.boolE false 1) (.num 3 1) 1) (initState [] []) =
      .err "Unsupported binary operator: && at line 1" (initState [] []) ∧
    evaluate 5 (.bin "||" (.boolE true 1) (.num 3 1) 1) (initState [] []) =
      .err "Unsupported binary operator: || at line 1" (initState [] []) := by
  constructor
  · exact c4_amended_no_short_circuit 3 "&&" (.boolE false 1) (.num 3 1) 1
      (initState [] []) (initState [] []) (initState [] []) (.vBool false) (.vInt 3)
      (Or.inl rfl) rfl rfl
  · exact c4_amended_no_short_circuit 3 "||" (.boolE true 1) (.num 3 1) 1
      (initState [] []) (initState [] []) (initState [] []) (.vBool true) (.vInt 3)
      (Or.inr rfl) rfl rfl

/-- Claim C5: indexing an array value with an integer index succeeds with the
i-th element exactly when `0 <= i < len` and raises the bounds error
`Index out of bounds` for every other integer index (negative ones included),
for both int arrays and string arrays. -/
theorem c5_index_bounds_checked :
    (∀ (fuel : Nat) (aE iE : Expr) (L : Int) (st st1 st2 : InterpState)
       (i : Int) (xs : List Int),
      evaluate fuel aE st = .ok (.vIntArr xs) st1 →
      evaluate fuel iE st1 = .ok (.vInt i) st2 →
      ((0 ≤ i ∧ i < (xs.length : Int)) →
        evaluate (fuel + 2) (.indexE aE iE L) st =
          .ok (.vInt (xs.getD i.toNat 0)) st2) ∧
      (¬(0 ≤ i ∧ i < (xs.length : Int)) →
        evaluate (fuel + 2) (.indexE aE iE L) st =
          .err ("Index out of bounds at line " ++ toString L) st2)) ∧
    (∀ (fuel : Nat) (aE iE : Expr) (L : Int) (st st1 st2 : InterpState)
       (i : Int) (ys : List String),
      evaluate fuel aE st = .ok (.vStrArr ys) st1 →
      evaluate fuel iE st1 = .ok (.vInt i) st2 →
      ((0 ≤ i ∧ i < (ys.length : Int)) →
        evaluate (fuel + 2) (.indexE aE iE L) st =
          .ok (.vStr (ys.getD i.toNat "")) st2) ∧
      (¬(0 ≤ i ∧ i < (ys.length : Int)) →
        evaluate (fuel + 2) (.indexE aE iE L) st =
          .err ("Index out of bounds at line " ++ toString L) st2)) := by
  constructor
  · intro fuel aE iE L st st1 st2 i xs h1 h2
    rw [show fuel + 2 = fuel + 1 + 1 from rfl]
    constructor
    · intro hin
      simp only [evaluate, evaluateIndexExpression, h1, h2, if_pos hin]
      rfl
    · intro hout
      simp only [evaluate, evaluateIndexExpression, h1, h2, if_neg hout]
      rfl
  · intro fuel aE iE L st st1 st2 i ys h1 h2
    rw [show fuel + 2 = fuel + 1 + 1 from rfl]
    constructor
    · intro hin
      simp only [evaluate, evaluateIndexExpression, h1, h2, if_pos hin]
      rfl
    · intro hout
      simp only [evaluate, evaluateIndexExpression, h1, h2, if_neg hout]
      rfl

/-- Witness for C5: with `a = [10, 20, 30]`, `a[1]` yields 20, `a[5]` and
`a[m]` with `m = -1` raise the bounds error. -/
theorem c5_witness :
    evaluate 5 (.indexE (.var "a" 1) (.num 1 1) 1) stC5 = .ok (.vInt 20) stC5 ∧
    evaluate 5 (.indexE (.var "a" 1) (.num 5 1) 1) stC5 =
      .err "Index out of bounds at line 1" stC5 ∧
    evaluate 5 (.indexE (.var "a" 1) (.var "m" 1) 1) stC5 =
      .err "Index out of bounds at line 1" stC5 := by
  refine ⟨?_, ?_, ?_⟩
  · exact ((c5_index_bounds_checked.1 3 (.var "a" 1) (.num 1 1) 1 stC5 stC5 stC5
      1 [10, 20, 30]) rfl rfl).1 (by decide)
  · exact ((c5_index_bounds_checked.1 3 (.var "a" 1) (.num 5 1) 1 stC5 stC5 stC5
      5 [10, 20, 30]) rfl rfl).2 (by decide)
  · exact ((c5_index_bounds_checked.1 3 (.var "a" 1) (.var "m" 1) 1 stC5 stC5 stC5
      (-1) [10, 20, 30]) rfl rfl).2 (by decide)

/-- Claim C6 (counterexample): with `x` holding the float 3.0, `3 == x`
evaluates to `false` and `3 != x` to `true` — `==` does NOT compare across
the integer/float alternatives of the value union (C++
`std::variant::operator==` is equal-index-then-equal-payload). -/
theorem c6_cross_kind_equality_is_false :
    evaluate 8 (.bin "==" (.num 3 1) (.var "x" 1) 1) stC6 = .ok (.vBool false) stC6 ∧
    evaluate 8 (.bin "!=" (.num 3 1) (.var "x" 1) 1) stC6 = .ok (.vBool true) stC6 :=
  ⟨rfl, rfl⟩

/-- Claim C6 (amended): `==` yields true exactly when the two values have the
same variant alternative and equal payloads, and `!=` is its negation;
in particular `Int(3)` and `Float(3.0)` are different values, so `==` on them
is false. -/
theorem c6_amended_same_tag_equality :
    (∀ (fuel : Nat) (l r : Expr) (L : Int) (st st1 st2 : InterpState)
       (vl vr : Value),
      evaluate fuel l st = .ok vl st1 →
      evaluate fuel r st1 = .ok vr st2 →
      evaluate (fuel + 2) (.bin "==" l r L) st = .ok (.vBool (decide (vl = vr))) st2 ∧
      evaluate (fuel + 2) (.bin "!=" l r L) st = .ok (.vBool (decide (vl ≠ vr))) st2) ∧
    Value.vInt 3 ≠ Value.vFloat 3 := by
  constructor
  · intro fuel l r L st st1 st2 vl vr h1 h2
    rw [show fuel + 2 = fuel + 1 + 1 from rfl]
    constructor <;> simp only [evaluate, evaluateBinaryExpression, h1, h2] <;> rfl
  · decide

/-- Witness for the amended C6. -/
theorem c6_amended_witness :
    evaluate 5 (.bin "==" (.num 3 1) (.var "x" 1) 1) stC6 = .ok (.vBool false) stC6 ∧
    evaluate 5 (.bin "!=" (.num 3 1) (.var "x" 1) 1) stC6 = .ok (.vBool true) stC6 := by
  have h := c6_amended_same_tag_equality.1 3 (.num 3 1) (.var "x" 1) 1 stC6 stC6 stC6
    (.vInt 3) (.vFloat 3) rfl rfl
  exact ⟨h.1, h.2⟩

/-- Claim C7 (counterexample): calling `g()` whose body finishes without a
`Return` yields the INTEGER 0 (`return 0;` at the end of
`evaluateFunctionCallExpression`), not Null — the value union has no null
alternative at all, and `write(g())` would print `0`. -/
theorem c7_fallthrough_returns_int_zero :
    evaluate 8 (.call "g" [] 1) stC7 = .ok (.vInt 0) stC7 ∧
    printValueStr (.vInt 0) = "0" :=
  ⟨rfl, rfl⟩

/-- Claim C7 (amended): every user-defined function call whose body completes
without a `Return` unwinding evaluates to the integer value 0, with the
caller bindings restored to their post-argument-evaluation values. -/
theorem c7_amended_fallthrough_yields_zero :
    ∀ (fuel : Nat) (fname : String) (args : List Expr) (L : Int)
      (st st1 st2 : InterpState) (params : List String) (body : List Stmt)
      (locals : List (String × VarEntry)),
      lookupA st.functions fname = some (params, body) →
      params.length = args.length →
      evalBindArgs fuel params args st.vars st = .ok locals st1 →
      execList fuel body { st1 with vars := locals } = .ok st2 →
      evaluate (fuel + 2) (.call fname args L) st =
        .ok (.vInt 0) { st2 with vars := st1.vars } := by
  intro fuel fname args L st st1 st2 params body locals hf ha hb hx
  have hlen : ¬ params.length ≠ args.length := by simp [ha]
  rw [show fuel + 2 = fuel + 1 + 1 from rfl]
  simp only [evaluate, evaluateFunctionCallExpression, hf, hb, hx, if_neg hlen]
  rfl

/-- Witness for the amended C7. -/
theorem c7_amended_witness :
    evaluate 10 (.call "g" [] 1) stC7 = .ok (.vInt 0) stC7 := by
  exact c7_amended_fallthrough_yields_zero 8 "g" [] 1 stC7 stC7 stC7 [] [] []
    rfl rfl rfl rfl

/-- Claim C1 (code bug): the spec requires that assigning to a `const`
binding fails with a ConstError-style error and leaves the value unchanged.
On the failing input `const c = 7; c = 8;` the code parses the reassignment
into an `ExpressionStatement`, which matches no branch of
`Interpreter::execute`: the program runs to completion with NO error (empty
stderr, empty stdout, exit code 0) — the binding does stay at `7`.  The
const-check in `evaluateBinaryExpression` (which would raise
`Cannot assign to constant variable`) is unreachable from a reassignment
statement. -/
theorem c1_const_reassignment_silently_ignored :
    parseProgramTokens 32 c1Toks = .ok c1Prog [eofTok] ∧
    execList 32 c1Prog (initState [] []) = .ok c1Final ∧
    lookupA c1Final.vars "c" = some ⟨.vInt 7, true⟩ ∧
    c1Final.errBuf = [] ∧ c1Final.outBuf = "" ∧
    runProgram 32 c1Toks [] [] = some (0, "", []) :=
  ⟨rfl, rfl, rfl, rfl, rfl, rfl⟩

/-- Claim C2 (counterexample): running `write(x);` with `x` unbound raises an
evaluation error in a top-level statement — the message lands on stderr — yet
the process exits 0, not 1 as the claim requires. -/
theorem c2_eval_error_still_exits_zero :
    runProgram 32 c2Toks [] [] =
      some (0, "", ["Error executing statement: Undefined variable: x at line 1"]) ∧
    (0 : Nat) ≠ 1 :=
  ⟨rfl, by decide⟩

/-- Claim C8 (counterexample): in the parse of `a % b + c` the modulo is NOT
a subtree of the addition — the tree is `a % (b + c)` with the addition a
subtree of the modulo, because `Parser::getPrecedence` has no case for `%`
and returns the default 0. -/
theorem c8_modulo_not_under_addition :
    parseExpression 32 0 c8cToks = .ok c8cTree [eofTok] ∧
    opInsideOp "+" "%" c8cTree = false ∧
    opInsideOp "%" "+" c8cTree = true :=
  ⟨rfl, rfl, rfl⟩

/-- Claim C8 (amended): `*` and `/` (precedence 6) bind tighter than `+` and
`-` (precedence 5) and same-level operators associate left — `a + b * c`
parses with the multiplication under the addition and `a - b - c` parses as
`(a - b) - c` — but `%` has no entry in `getPrecedence` (default 0, the
lowest), so `a % b + c` parses as `a % (b + c)`. -/
theorem c8_amended_precedence_with_modulo_loosest :
    parseExpression 32 0 c8aToks = .ok c8aTree [eofTok] ∧
    opInsideOp "+" "*" c8aTree = true ∧
    parseExpression 32 0 c8bToks = .ok c8bTree [eofTok] ∧
    parseExpression 32 0 c8cToks = .ok c8cTree [eofTok] ∧
    getPrecedence "*" = 6 ∧ getPrecedence "/" = 6 ∧
    getPrecedence "+" = 5 ∧ getPrecedence "-" = 5 ∧
    getPrecedence "%" = 0 :=
  ⟨rfl, rfl, rfl, rfl, rfl, rfl, rfl, rfl, rfl⟩

/-- Claim C9: the parser turns the reassignment `i = i + 1;` into an
`ExpressionStatement`, and executing any statement whose dynamic type has no
branch in `Interpreter::execute` — `ExpressionStatement`, `ReadStatement`,
`ClassDeclaration` — is a silent no-op: no error, no output, and every
binding (indeed the whole state) unchanged. -/
theorem c9_unhandled_statements_are_silent_noops :
    parseStatement 32 c9Toks = .ok (some c9Stmt) [eofTok] ∧
    (∀ (fuel : Nat) (st : InterpState) (e : Expr) (l : Int),
      execute (fuel + 2) (.exprStmt e l) st = .ok st) ∧
    (∀ (fuel : Nat) (st : InterpState) (v p : Option Expr) (l : Int),
      execute (fuel + 2) (.readS v p l) st = .ok st) ∧
    (∀ (fuel : Nat) (st : InterpState) (n : String) (ms : List ClassMember) (l : Int),
      execute (fuel + 2) (.classDecl n ms l) st = .ok st) := by
  refine ⟨rfl, ?_, ?_, ?_⟩ <;> intros <;> rfl

/-- Claim C10: `Parser::parsePrimary` converts every number token with
`std::stod` into a `NumberExpression`, and
`Interpreter::evaluateNumberExpression` truncates that double toward zero
with `static_cast<int>`, so every numeric literal evaluates to an integer:
the literal `2.5` evaluates to the integer 2 (and truncation is toward zero
also for negative rationals). -/
theorem c10_numeric_literals_truncate_toward_zero :
    (∀ (fuel : Nat) (s : String) (l : Int) (rest : List Token),
      parsePrimary (fuel + 1) (⟨.number, s, l⟩ :: rest) =
        .ok (.num (parseDecimal s) l) rest) ∧
    (∀ (fuel : Nat) (q : Rat) (l : Int) (st : InterpState),
      evaluate (fuel + 1) (.num q l) st = .ok (.vInt (ratTrunc q)) st) ∧
    parseDecimal "2.5" = (5 : Rat) / 2 ∧
    ratTrunc ((5 : Rat) / 2) = 2 ∧
    ratTrunc (-((5 : Rat) / 2)) = -2 ∧
    (∀ (fuel : Nat) (st : InterpState),
      evaluate (fuel + 1) (.num (parseDecimal "2.5") 1) st = .ok (.vInt 2) st) := by
  refine ⟨?_, ?_, by with_unfolding_all rfl, by with_unfolding_all rfl,
    by with_unfolding_all rfl, ?_⟩
  · intros; rfl
  · intros; rfl
  · intro fuel st
    show wrapLine 1 (.ok (evaluateNumberExpression (parseDecimal "2.5")) st) = _
    have h : evaluateNumberExpression (parseDecimal "2.5") = .vInt 2 := by
      with_unfolding_all rfl
    rw [h]
    rfl

end FoxL
